import Mathlib

/-!
Shallow embedding of the restaurant-reservation backend
(controllers/reservations.js, controllers/auth.js, controllers/restaurants.js,
models/Restaurant.js). Mongo documents become Lean structures, the document
store becomes an explicit `DB` value, and each Express handler becomes a pure
function returning `Except ApiError _` (the handler's early-return error
responses) together with the updated store where the handler mutates it.
Identifier comparisons in the source are JavaScript string comparisons on
ObjectIds; here ids are `Nat` with decidable equality and roles are the raw
role strings, compared against "admin" exactly as the source does.
-/

/-- Identity attached to the request context by the auth middleware:
`req.user.id` and `req.user.role`. -/
structure AuthUser where
  id : Nat
  role : String
deriving Repr, DecidableEq

/-- Reservation document: apptDate, user reference, restaurant reference,
createdAt (models/Reservation.js fields used by the controllers). -/
structure Reservation where
  rid : Nat
  apptDate : String
  user : Nat
  restaurant : Nat
  createdAt : Nat
deriving Repr, DecidableEq

/-- Restaurant document (models/Restaurant.js). -/
structure Restaurant where
  rid : Nat
  name : String
  address : String
  tel : String
  openingHours : String
  createdAt : Nat
deriving Repr, DecidableEq

/-- User document (models/User.js): email is the lookup key for login,
hashedPassword stands for the bcrypt-hashed stored secret. -/
structure UserRec where
  uid : Nat
  name : String
  tel : String
  email : String
  hashedPassword : String
  role : String
deriving Repr, DecidableEq

/-- The document store: the restaurant catalog, the reservation ledger and
the identity store. -/
structure DB where
  restaurants : List Restaurant
  reservations : List Reservation
  users : List UserRec
deriving Repr, DecidableEq

/-- Error outcomes of the handlers, named after the spec's taxonomy:
notFound = 404 branches, forbidden = the ownership 401 branches,
admissionDenied = the 400 booking-cap branch, validationError = the 400
missing-email/password branch, invalidCredentials = the 401 login branch,
internal = a thrown exception converted by a catch block into a bare
failure response. -/
inductive ApiError where
  | notFound
  | forbidden
  | admissionDenied
  | validationError
  | invalidCredentials
  | internal
deriving Repr, DecidableEq

/-- Reservation.findById(req.params.id). -/
def findReservation (db : DB) (id : Nat) : Option Reservation :=
  db.reservations.find? (fun r => r.rid == id)

/-- Restaurant.findById(id). -/
def findRestaurant (db : DB) (id : Nat) : Option Restaurant :=
  db.restaurants.find? (fun t => t.rid == id)

/-- Number of reservations owned by a user:
length of Reservation.find with user equal to uid. -/
def ownedCount (db : DB) (uid : Nat) : Nat :=
  (db.reservations.filter (fun r => r.user == uid)).length

/-- getReservations (GET /api/v1/reservations): a non-admin caller queries
only its own rows; an admin queries by the optional restaurantId route
parameter, or everything when it is absent. -/
def getReservations (caller : AuthUser) (restaurantId : Option Nat) (db : DB) :
    List Reservation :=
  if caller.role != "admin" then
    db.reservations.filter (fun r => r.user == caller.id)
  else
    match restaurantId with
    | some rid => db.reservations.filter (fun r => r.restaurant == rid)
    | none => db.reservations

/-- getReservation (GET /api/v1/reservations/:id): 404 when absent, the
ownership check `reservation.user.toString() !== req.user.id &&
req.user.role !== 'admin'` rejects, otherwise the document is returned. -/
def getReservation (caller : AuthUser) (id : Nat) (db : DB) :
    Except ApiError Reservation :=
  match findReservation db id with
  | none => .error .notFound
  | some r =>
    if r.user != caller.id && caller.role != "admin" then .error .forbidden
    else .ok r

/-- Request body for POST .../reservations; the controller overwrites the
user and restaurant fields whatever the client sent. -/
structure ReservationBody where
  apptDate : String
  user : Option Nat := none
  restaurant : Option Nat := none
deriving Repr, DecidableEq

/-- addReservation (POST /api/v1/restaurants/:restaurantId/reservations).
Follows the source order: set body.restaurant from the route, 404 when the
restaurant is absent, set body.user from the caller, count the caller's
existing reservations, reject with the cap when the count is at least 3 and
the caller is not an admin, otherwise create. `newId` and `now` stand for
the store-generated _id and createdAt default. -/
def addReservation (caller : AuthUser) (restaurantId : Nat)
    (body : ReservationBody) (newId now : Nat) (db : DB) :
    Except ApiError (Reservation × DB) :=
  let body1 := { body with restaurant := some restaurantId }
  match findRestaurant db restaurantId with
  | none => .error .notFound
  | some _ =>
    let body2 := { body1 with user := some caller.id }
    let existedReservations := db.reservations.filter (fun r => r.user == caller.id)
    if existedReservations.length ≥ 3 ∧ caller.role ≠ "admin" then
      .error .admissionDenied
    else
      let newRes : Reservation :=
        { rid := newId
          apptDate := body2.apptDate
          user := body2.user.getD caller.id
          restaurant := body2.restaurant.getD restaurantId
          createdAt := now }
      .ok (newRes, { db with reservations := db.reservations ++ [newRes] })

/-- State of the ledger after a create attempt: the handler returns before
Reservation.create on every error path, so an error leaves the store as it
was. -/
def dbAfterCreate (res : Except ApiError (Reservation × DB)) (db0 : DB) : DB :=
  match res with
  | .ok (_, db1) => db1
  | .error _ => db0

/-- Update body for PUT /api/v1/reservations/:id: findByIdAndUpdate applies
every field present in req.body, not only apptDate. -/
structure ReservationPatch where
  apptDate : Option String := none
  user : Option Nat := none
  restaurant : Option Nat := none
deriving Repr, DecidableEq

/-- Effect of Reservation.findByIdAndUpdate(id, req.body): each field present
in the body replaces the stored one. -/
def applyPatch (r : Reservation) (p : ReservationPatch) : Reservation :=
  { r with
    apptDate := p.apptDate.getD r.apptDate
    user := p.user.getD r.user
    restaurant := p.restaurant.getD r.restaurant }

/-- updateReservation (PUT /api/v1/reservations/:id): 404 when absent, the
same ownership check as getReservation, then findByIdAndUpdate with the whole
body. -/
def updateReservation (caller : AuthUser) (id : Nat) (patch : ReservationPatch)
    (db : DB) : Except ApiError (Reservation × DB) :=
  match findReservation db id with
  | none => .error .notFound
  | some r =>
    if r.user != caller.id && caller.role != "admin" then .error .forbidden
    else
      let r1 := applyPatch r patch
      .ok (r1, { db with
        reservations := db.reservations.map (fun x => if x.rid == id then r1 else x) })

/-- deleteReservation (DELETE /api/v1/reservations/:id): 404 when absent, the
same ownership check, then reservation.deleteOne() removes the document. -/
def deleteReservation (caller : AuthUser) (id : Nat) (db : DB) :
    Except ApiError DB :=
  match findReservation db id with
  | none => .error .notFound
  | some r =>
    if r.user != caller.id && caller.role != "admin" then .error .forbidden
    else .ok { db with reservations := db.reservations.filter (fun x => x.rid != id) }

/-- deleteRestaurant (DELETE /api/v1/restaurants/:id): 404 when absent;
restaurant.deleteOne() first fires the schema pre-deleteOne hook
(models/Restaurant.js), which deletes every reservation whose restaurant
field is this._id, then removes the restaurant document itself. -/
def deleteRestaurant (id : Nat) (db : DB) : Except ApiError DB :=
  match findRestaurant db id with
  | none => .error .notFound
  | some t =>
    let cascaded := { db with
      reservations := db.reservations.filter (fun r => r.restaurant != t.rid) }
    .ok { cascaded with
      restaurants := cascaded.restaurants.filter (fun x => x.rid != t.rid) }

/-- Login request body; in JavaScript both a missing field and an empty
string are falsy under `!email`, so each field is an Option and the empty
string is treated as absent by the validation. -/
structure LoginBody where
  email : Option String := none
  password : Option String := none
deriving Repr, DecidableEq

/-- Truthiness test the login validation applies to a body field:
undefined and the empty string are falsy. -/
def strFalsy (o : Option String) : Bool :=
  match o with
  | none => true
  | some s => s == ""

/-- Modelled from the spec: UserSchema.matchPassword (models/User.js, a file
absent from the sources) verifies the entered secret by comparing its hash
against the stored hash. `hash` abstracts the bcrypt digest function. -/
def matchPassword (hash : String → String) (u : UserRec) (p : String) : Bool :=
  hash p == u.hashedPassword

/-- Modelled from the spec: UserSchema.getSignedJwtToken (models/User.js,
absent from the sources) issues a signed session token for the user's id. -/
def getSignedJwtToken (u : UserRec) : String :=
  "signed." ++ toString u.uid

/-- User.findOne with the given email. -/
def findUserByEmail (db : DB) (e : String) : Option UserRec :=
  db.users.find? (fun u => u.email == e)

/-- login (POST /api/v1/auth/login), in source order: 400 when email or
password is falsy, then User.findOne by email (404 when absent), then
matchPassword (401 on mismatch), else sendTokenResponse with the signed
token. -/
def login (hash : String → String) (db : DB) (body : LoginBody) :
    Except ApiError String :=
  if strFalsy body.email || strFalsy body.password then
    .error .validationError
  else
    match findUserByEmail db (body.email.getD "") with
    | none => .error .notFound
    | some u =>
      if matchPassword hash u (body.password.getD "") then
        .ok (getSignedJwtToken u)
      else .error .invalidCredentials

/-- Value of one key of the parsed query string (extended qs parsing):
either a plain string or a nested object of operator keys, as produced by
bracketed filters such as field[gte]=v. -/
inductive QueryVal where
  | plain (s : String)
  | nested (ops : List (String × String))
deriving Repr, DecidableEq

/-- req.query of GET /api/v1/restaurants as an association list. -/
structure RestReq where
  query : List (String × QueryVal)
deriving Repr, DecidableEq

/-- Lookup of one key of req.query. -/
def qget (req : RestReq) (k : String) : Option QueryVal :=
  (req.query.find? (fun kv => kv.1 == k)).map (fun kv => kv.2)

/-- Lookup of a key expected to be a plain string (select, sort, page,
limit). -/
def qgetStr (req : RestReq) (k : String) : Option String :=
  match qget req k with
  | some (.plain s) => some s
  | _ => none

/-- Keys the handler deletes from reqQuery before building the filter. -/
def removeFields : List String := ["select", "sort", "page", "limit"]

/-- reqQuery after removeFields.forEach(delete). -/
def reqQueryFiltered (req : RestReq) : List (String × QueryVal) :=
  req.query.filter (fun kv => !removeFields.contains kv.1)

/-- Word character of the JavaScript regex classes: ASCII letter, digit or
underscore. -/
def isWordChar (c : Char) : Bool :=
  c.isAlpha || c.isDigit || c == '_'

/-- Operator words of the replacement regex gt|gte|lt|lte|in. -/
def opWords : List String := ["gt", "gte", "lt", "lte", "in"]

/-- Flush one maximal word-character run: the run gets the dollar prefix
exactly when it equals an operator word, because the match needs a word
boundary on both sides and the ordered alternation backtracks to the longer
alternative when a word character follows. -/
def emitRun (run : List Char) (rest : List Char) : List Char :=
  if run.isEmpty then rest
  else if opWords.contains (String.mk run) then '$' :: run ++ rest
  else run ++ rest

/-- Left-to-right scan of the replacement: word characters accumulate into
the current run, any other character flushes the run and passes through. -/
def replaceOpsGo (acc : List Char) : List Char → List Char
  | [] => emitRun acc []
  | c :: cs =>
    if isWordChar c then replaceOpsGo (acc ++ [c]) cs
    else emitRun acc (c :: replaceOpsGo [] cs)

/-- Global word-bounded regex replacement of gt|gte|lt|lte|in by the
dollar-prefixed operator, as run by the source over the serialized query:
every maximal word-character run equal to an operator word gains the prefix,
also inside longer strings (so "dine-in" becomes "dine-$in"). In the JSON
string the quotes, braces, colons and commas around every key and value are
non-word characters, so word runs never straddle two tokens and applying the
replacement to each key and value separately agrees with applying it to the
serialized whole. -/
def replaceOps (s : String) : String :=
  String.mk (replaceOpsGo [] s.data)

/-- Regex replacement applied to one value of reqQuery. -/
def translateVal : QueryVal → QueryVal
  | .plain s => .plain (replaceOps s)
  | .nested ops => .nested (ops.map (fun kv => (replaceOps kv.1, replaceOps kv.2)))

/-- Regex replacement applied to the whole reqQuery. -/
def translateQuery (q : List (String × QueryVal)) : List (String × QueryVal) :=
  q.map (fun kv => (replaceOps kv.1, translateVal kv.2))

/-- Longest digit run at the head of the character list. -/
def takeDigits : List Char → List Char
  | [] => []
  | c :: cs => if c.isDigit then c :: takeDigits cs else []

/-- Decimal value of a digit list. -/
def digitsToNat (cs : List Char) : Nat :=
  cs.foldl (fun a c => a * 10 + (c.toNat - 48)) 0

/-- Leading whitespace skipped, as parseInt does before reading the
number. -/
def skipWs : List Char → List Char
  | [] => []
  | c :: cs => if c.isWhitespace then skipWs cs else c :: cs

/-- JavaScript parseInt(s, 10): skip whitespace, optional sign, read the
leading digit run; NaN (here none) when no digit follows. -/
def parseIntJS (s : String) : Option Int :=
  match skipWs s.data with
  | '-' :: rest =>
    let ds := takeDigits rest
    if ds.isEmpty then none else some (-(digitsToNat ds : Int))
  | '+' :: rest =>
    let ds := takeDigits rest
    if ds.isEmpty then none else some ((digitsToNat ds : Int))
  | cs =>
    let ds := takeDigits cs
    if ds.isEmpty then none else some ((digitsToNat ds : Int))

/-- JavaScript `x || d` on a number: NaN (none) and 0 are falsy and give the
default. -/
def jsOrInt (v : Option Int) (d : Int) : Int :=
  match v with
  | none => d
  | some n => if n == 0 then d else n

/-- parseInt(req.query.page, 10) || 1. -/
def effectivePage (req : RestReq) : Int :=
  jsOrInt ((qgetStr req "page").bind parseIntJS) 1

/-- parseInt(req.query.limit, 10) || 25. -/
def effectiveLimit (req : RestReq) : Int :=
  jsOrInt ((qgetStr req "limit").bind parseIntJS) 25

/-- Select argument: a missing or empty select is falsy and leaves the query
unprojected, a plain select is split on commas and joined with spaces, and
an object-valued select is truthy but has no split method, so the handler
throws and the catch block answers with the bare failure response. -/
def selectArg (v : Option QueryVal) : Except ApiError (Option String) :=
  match v with
  | none => .ok none
  | some (.plain s) =>
    .ok (if s == "" then none else some (String.intercalate " " (s.splitOn ",")))
  | some (.nested _) => .error .internal

/-- Sort argument: a missing or empty sort is falsy and gives the default
"-createdAt" (descending creation time), a plain sort is split on commas and
joined with spaces, and an object-valued sort is truthy but has no split
method, so the handler throws into the catch block. -/
def sortArg (v : Option QueryVal) : Except ApiError String :=
  match v with
  | none => .ok "-createdAt"
  | some (.plain s) =>
    .ok (if s == "" then "-createdAt" else String.intercalate " " (s.splitOn ","))
  | some (.nested _) => .error .internal

/-- The store query getRestaurants assembles before awaiting it: translated
filter, projection, sort key, skip and limit. -/
structure QuerySpec where
  filter : List (String × QueryVal)
  projection : Option String
  sortBy : String
  skip : Int
  limit : Int
deriving Repr, DecidableEq

/-- getRestaurants (GET /api/v1/restaurants), query-building part in source
order: copy req.query, drop select/sort/page/limit, apply the operator
regex, then the select step, then the sort step (each can throw on an
object-valued argument), then pagination with page default 1 and limit
default 25; parseInt of an object is NaN, so a malformed page or limit just
falls back to its default. -/
def buildRestaurantQuery (req : RestReq) : Except ApiError QuerySpec :=
  match selectArg (qget req "select") with
  | .error e => .error e
  | .ok proj =>
    match sortArg (qget req "sort") with
    | .error e => .error e
    | .ok srt =>
      .ok { filter := translateQuery (reqQueryFiltered req)
            projection := proj
            sortBy := srt
            skip := (effectivePage req - 1) * effectiveLimit req
            limit := effectiveLimit req }

/-! Evaluation lemmas shared by the claim theorems. -/

/-- Create evaluates to 404 when the restaurant lookup comes back empty. -/
lemma addReservation_none_eval (caller : AuthUser) (restaurantId : Nat)
    (body : ReservationBody) (newId now : Nat) (db : DB)
    (ht : findRestaurant db restaurantId = none) :
    addReservation caller restaurantId body newId now db = .error .notFound := by
  simp [addReservation, ht]

/-- Create with an existing restaurant reduces to the cap test followed by
the insert. -/
lemma addReservation_found_eval (caller : AuthUser) (restaurantId : Nat)
    (body : ReservationBody) (newId now : Nat) (db : DB) (t : Restaurant)
    (ht : findRestaurant db restaurantId = some t) :
    addReservation caller restaurantId body newId now db =
      if 3 ≤ ownedCount db caller.id ∧ caller.role ≠ "admin" then
        .error .admissionDenied
      else
        .ok ({ rid := newId, apptDate := body.apptDate, user := caller.id,
               restaurant := restaurantId, createdAt := now },
             { db with reservations := db.reservations ++
                 [{ rid := newId, apptDate := body.apptDate, user := caller.id,
                    restaurant := restaurantId, createdAt := now }] }) := by
  simp only [addReservation, ht, ownedCount]
  rfl

/-- Empty restaurant lookup from the pointwise absence of the id. -/
lemma findRestaurant_eq_none (db : DB) (restaurantId : Nat)
    (habs : ∀ t ∈ db.restaurants, t.rid ≠ restaurantId) :
    findRestaurant db restaurantId = none := by
  apply List.find?_eq_none.mpr
  intro t ht
  simp [habs t ht]

/-- Single-reservation read reduces to the ownership guard. -/
lemma getReservation_found_eval (caller : AuthUser) (id : Nat) (db : DB)
    (r : Reservation) (h : findReservation db id = some r) :
    getReservation caller id db =
      if r.user != caller.id && caller.role != "admin" then .error .forbidden
      else .ok r := by
  simp only [getReservation, h]

/-- Update reduces to the ownership guard followed by the patched write. -/
lemma updateReservation_found_eval (caller : AuthUser) (id : Nat)
    (patch : ReservationPatch) (db : DB) (r : Reservation)
    (h : findReservation db id = some r) :
    updateReservation caller id patch db =
      if r.user != caller.id && caller.role != "admin" then .error .forbidden
      else .ok (applyPatch r patch,
        { db with reservations :=
            db.reservations.map (fun x => if x.rid == id then applyPatch r patch else x) }) := by
  simp only [updateReservation, h]

/-- Delete reduces to the ownership guard followed by the removal. -/
lemma deleteReservation_found_eval (caller : AuthUser) (id : Nat) (db : DB)
    (r : Reservation) (h : findReservation db id = some r) :
    deleteReservation caller id db =
      if r.user != caller.id && caller.role != "admin" then .error .forbidden
      else .ok { db with reservations := db.reservations.filter (fun x => x.rid != id) } := by
  simp only [deleteReservation, h]

/-- Ownership guard fires exactly on a foreign non-admin caller. -/
lemma ownGuard_true {caller : AuthUser} {r : Reservation}
    (h1 : r.user ≠ caller.id) (h2 : caller.role ≠ "admin") :
    (r.user != caller.id && caller.role != "admin") = true := by
  simp [h1, h2]

/-- Ownership guard stays quiet for the owner and for admins. -/
lemma ownGuard_false {caller : AuthUser} {r : Reservation}
    (h : r.user = caller.id ∨ caller.role = "admin") :
    (r.user != caller.id && caller.role != "admin") = false := by
  rcases h with h | h <;> simp [h]

/-! Concrete store used by the witnesses. User 1 owns three reservations
across both restaurants; user 2 owns one. -/

/-- Demo restaurant with id 10. -/
def demoRestA : Restaurant :=
  { rid := 10, name := "Happy Restaurant", address := "121 Sukhumvit",
    tel := "02-2187000", openingHours := "09:00-22:00", createdAt := 0 }

/-- Demo restaurant with id 20. -/
def demoRestB : Restaurant :=
  { rid := 20, name := "Second Place", address := "99 Rama IV",
    tel := "02-1111111", openingHours := "10:00-20:00", createdAt := 1 }

/-- Reservation 1 of user 1 at restaurant 10. -/
def demoR1 : Reservation :=
  { rid := 1, apptDate := "2025-05-01", user := 1, restaurant := 10, createdAt := 2 }

/-- Reservation 2 of user 1 at restaurant 20. -/
def demoR2 : Reservation :=
  { rid := 2, apptDate := "2025-05-02", user := 1, restaurant := 20, createdAt := 3 }

/-- Reservation 3 of user 1 at restaurant 10. -/
def demoR3 : Reservation :=
  { rid := 3, apptDate := "2025-05-03", user := 1, restaurant := 10, createdAt := 4 }

/-- Reservation 4 of user 2 at restaurant 10. -/
def demoR4 : Reservation :=
  { rid := 4, apptDate := "2025-05-04", user := 2, restaurant := 10, createdAt := 5 }

/-- Demo account for user 1. -/
def demoUser1 : UserRec :=
  { uid := 1, name := "Alice", tel := "081", email := "alice@example.com",
    hashedPassword := "pw1", role := "user" }

/-- Demo store. -/
def demoDB : DB :=
  { restaurants := [demoRestA, demoRestB],
    reservations := [demoR1, demoR2, demoR3, demoR4],
    users := [demoUser1] }

/-- C1: against an existing restaurant, a non-admin creation is rejected with
the admission cap exactly when the caller already owns at least three
reservations counted across all restaurants, a rejection leaves the ledger
unchanged, a non-admin below the cap succeeds, and an admin always
succeeds. -/
theorem addReservation_cap (caller : AuthUser) (restaurantId : Nat)
    (body : ReservationBody) (newId now : Nat) (db : DB) (t : Restaurant)
    (ht : findRestaurant db restaurantId = some t) :
    (caller.role ≠ "admin" →
      (addReservation caller restaurantId body newId now db = .error .admissionDenied ↔
        3 ≤ ownedCount db caller.id))
    ∧ (caller.role ≠ "admin" → ownedCount db caller.id < 3 →
      ∃ r db1, addReservation caller restaurantId body newId now db = .ok (r, db1))
    ∧ (caller.role = "admin" →
      ∃ r db1, addReservation caller restaurantId body newId now db = .ok (r, db1))
    ∧ (addReservation caller restaurantId body newId now db = .error .admissionDenied →
      dbAfterCreate (addReservation caller restaurantId body newId now db) db = db) := by
  rw [addReservation_found_eval caller restaurantId body newId now db t ht]
  refine ⟨fun hrole => ?_, fun hrole hlt => ?_, fun hrole => ?_, fun hden => ?_⟩
  · by_cases hcnt : 3 ≤ ownedCount db caller.id
    · rw [if_pos ⟨hcnt, hrole⟩]
      simp [hcnt]
    · rw [if_neg (fun hc => hcnt hc.1)]
      simp [hcnt]
  · rw [if_neg (fun hc => absurd hc.1 (Nat.not_le.mpr hlt))]
    exact ⟨_, _, rfl⟩
  · rw [if_neg (fun hc => hc.2 hrole)]
    exact ⟨_, _, rfl⟩
  · rw [hden]
    rfl

/-- C1 witness: user 1 (role "user") already owns three reservations in the
demo store, so a fourth creation at existing restaurant 10 is rejected. -/
theorem addReservation_cap_witness :
    addReservation ⟨1, "user"⟩ 10 ⟨"2025-06-01", none, none⟩ 99 7 demoDB =
      .error .admissionDenied :=
  ((addReservation_cap ⟨1, "user"⟩ 10 ⟨"2025-06-01", none, none⟩ 99 7 demoDB
    demoRestA (by decide)).1 (by decide)).mpr (by decide)

/-- C2: on an existing reservation, read, update and delete all reject a
foreign non-admin caller with the ownership error, and all succeed for the
owner or for an admin. -/
theorem reservation_ownership (caller : AuthUser) (id : Nat)
    (patch : ReservationPatch) (db : DB) (r : Reservation)
    (hfind : findReservation db id = some r) :
    (r.user ≠ caller.id ∧ caller.role ≠ "admin" →
      getReservation caller id db = .error .forbidden ∧
      updateReservation caller id patch db = .error .forbidden ∧
      deleteReservation caller id db = .error .forbidden)
    ∧ (r.user = caller.id ∨ caller.role = "admin" →
      (∃ x, getReservation caller id db = .ok x) ∧
      (∃ x, updateReservation caller id patch db = .ok x) ∧
      (∃ x, deleteReservation caller id db = .ok x)) := by
  constructor
  · rintro ⟨h1, h2⟩
    refine ⟨?_, ?_, ?_⟩
    · rw [getReservation_found_eval caller id db r hfind, ownGuard_true h1 h2]
      rfl
    · rw [updateReservation_found_eval caller id patch db r hfind, ownGuard_true h1 h2]
      rfl
    · rw [deleteReservation_found_eval caller id db r hfind, ownGuard_true h1 h2]
      rfl
  · intro h
    have hg := getReservation_found_eval caller id db r hfind
    have hu := updateReservation_found_eval caller id patch db r hfind
    have hd := deleteReservation_found_eval caller id db r hfind
    rw [ownGuard_false h] at hg hu hd
    simp only [Bool.false_eq_true, if_false] at hg hu hd
    exact ⟨⟨r, hg⟩, ⟨_, hu⟩, ⟨_, hd⟩⟩

/-- C2 witness: user 2 is not the owner of reservation 1 and not an admin,
so all three operations reject it. -/
theorem reservation_ownership_witness :
    getReservation ⟨2, "user"⟩ 1 demoDB = .error .forbidden ∧
    updateReservation ⟨2, "user"⟩ 1 ⟨none, none, none⟩ demoDB = .error .forbidden ∧
    deleteReservation ⟨2, "user"⟩ 1 demoDB = .error .forbidden :=
  (reservation_ownership ⟨2, "user"⟩ 1 ⟨none, none, none⟩ demoDB demoR1
    (by decide)).1 (by decide)

/-- C3: a non-admin listing returns exactly the caller's own reservations
whatever scope is supplied; an admin listing scoped to a restaurant returns
exactly that restaurant's reservations; an unscoped admin listing returns
the whole ledger. -/
theorem getReservations_scope (caller : AuthUser) (scope : Option Nat) (db : DB) :
    (caller.role ≠ "admin" → ∀ r : Reservation,
      r ∈ getReservations caller scope db ↔ r ∈ db.reservations ∧ r.user = caller.id)
    ∧ (caller.role = "admin" → ∀ rid : Nat, ∀ r : Reservation,
      r ∈ getReservations caller (some rid) db ↔ r ∈ db.reservations ∧ r.restaurant = rid)
    ∧ (caller.role = "admin" → getReservations caller none db = db.reservations) := by
  refine ⟨fun h r => ?_, fun h rid r => ?_, fun h => ?_⟩
  · simp [getReservations, h, List.mem_filter]
  · simp [getReservations, h, List.mem_filter]
  · simp [getReservations, h]

/-- C3 witness: in the demo store, a row of user 2 is in non-admin user 1's
listing exactly if user 1 owns it, which fails. -/
theorem getReservations_scope_witness :
    (demoR4 ∈ getReservations ⟨1, "user"⟩ none demoDB ↔
      demoR4 ∈ demoDB.reservations ∧ demoR4.user = 1) ∧
    demoR4 ∉ getReservations ⟨1, "user"⟩ none demoDB := by
  have h := (getReservations_scope ⟨1, "user"⟩ none demoDB).1 (by decide) demoR4
  exact ⟨h, fun hmem => by have := h.mp hmem; revert this; decide⟩

/-- C4: deleting an existing restaurant succeeds and the resulting store
keeps a reservation exactly if it does not reference the deleted
restaurant, keeps a restaurant exactly if it is not the deleted one, and
leaves the users untouched. -/
theorem deleteRestaurant_cascade (id : Nat) (db : DB) (t : Restaurant)
    (hfind : findRestaurant db id = some t) :
    ∃ db1, deleteRestaurant id db = .ok db1
      ∧ (∀ r : Reservation, r ∈ db1.reservations ↔
          r ∈ db.reservations ∧ r.restaurant ≠ t.rid)
      ∧ (∀ x : Restaurant, x ∈ db1.restaurants ↔
          x ∈ db.restaurants ∧ x.rid ≠ t.rid)
      ∧ db1.users = db.users
      ∧ t.rid = id := by
  have hid : t.rid = id := by
    have h1 : db.restaurants.find? (fun x => x.rid == id) = some t := hfind
    have h2 := List.find?_some h1
    simpa using h2
  refine ⟨{ db with
      reservations := db.reservations.filter (fun r => r.restaurant != t.rid),
      restaurants := db.restaurants.filter (fun x => x.rid != t.rid) },
    ?_, ?_, ?_, rfl, hid⟩
  · simp [deleteRestaurant, hfind]
  · intro r
    simp [List.mem_filter]
  · intro x
    simp [List.mem_filter]

/-- C4 witness: deleting restaurant 10 in the demo store keeps exactly the
reservations that do not reference it, keeps the other restaurant and keeps
the users. -/
theorem deleteRestaurant_cascade_witness :
    ∃ db1, deleteRestaurant 10 demoDB = .ok db1
      ∧ (∀ r : Reservation, r ∈ db1.reservations ↔
          r ∈ demoDB.reservations ∧ r.restaurant ≠ demoRestA.rid)
      ∧ (∀ x : Restaurant, x ∈ db1.restaurants ↔
          x ∈ demoDB.restaurants ∧ x.rid ≠ demoRestA.rid)
      ∧ db1.users = demoDB.users
      ∧ demoRestA.rid = 10 :=
  deleteRestaurant_cascade 10 demoDB demoRestA (by decide)

/-- C5: creating a reservation against a restaurant id that no stored
restaurant carries fails with the not-found error for every caller, and the
store after the attempt is the unchanged input store. -/
theorem addReservation_missing_restaurant (caller : AuthUser)
    (restaurantId : Nat) (body : ReservationBody) (newId now : Nat) (db : DB)
    (habs : ∀ t ∈ db.restaurants, t.rid ≠ restaurantId) :
    addReservation caller restaurantId body newId now db = .error .notFound
    ∧ dbAfterCreate (addReservation caller restaurantId body newId now db) db = db := by
  have h1 := addReservation_none_eval caller restaurantId body newId now db
    (findRestaurant_eq_none db restaurantId habs)
  refine ⟨h1, ?_⟩
  rw [h1]
  rfl

/-- C5 witness: no demo restaurant has id 99, so creation against it fails
with not-found and the store is unchanged. -/
theorem addReservation_missing_restaurant_witness :
    addReservation ⟨1, "user"⟩ 99 ⟨"2025-06-01", none, none⟩ 50 7 demoDB =
      .error .notFound
    ∧ dbAfterCreate
        (addReservation ⟨1, "user"⟩ 99 ⟨"2025-06-01", none, none⟩ 50 7 demoDB)
        demoDB = demoDB :=
  addReservation_missing_restaurant ⟨1, "user"⟩ 99 ⟨"2025-06-01", none, none⟩
    50 7 demoDB (by decide)

/-- C6: with a nonempty email and password, login fails with not-found when
no stored user carries the email; when the lookup finds a user, a hash
mismatch fails with invalid-credentials (so no token is issued) and a hash
match returns the signed token. -/
theorem login_flow (hash : String → String) (db : DB) (e p : String)
    (he : e ≠ "") (hp : p ≠ "") :
    ((∀ u ∈ db.users, u.email ≠ e) →
      login hash db { email := some e, password := some p } = .error .notFound)
    ∧ (∀ u, findUserByEmail db e = some u →
      (hash p ≠ u.hashedPassword →
        login hash db { email := some e, password := some p } =
          .error .invalidCredentials)
      ∧ (hash p = u.hashedPassword →
        login hash db { email := some e, password := some p } =
          .ok (getSignedJwtToken u))) := by
  have hcond : (strFalsy (some e) || strFalsy (some p)) = false := by
    simp [strFalsy, he, hp]
  constructor
  · intro habs
    have hnone : findUserByEmail db e = none := by
      apply List.find?_eq_none.mpr
      intro u hu
      simp [habs u hu]
    simp [login, hcond, hnone]
  · intro u hu
    constructor
    · intro hmis
      have : matchPassword hash u p = false := by
        simp [matchPassword, hmis]
      simp [login, hcond, hu, this]
    · intro hmat
      have : matchPassword hash u p = true := by
        simp [matchPassword, hmat]
      simp [login, hcond, hu, this]

/-- C6 witness: with the identity digest, the demo user's correct password
yields the signed token, and a wrong password yields invalid-credentials. -/
theorem login_flow_witness :
    login (fun s => s) demoDB
        { email := some "alice@example.com", password := some "pw1" } =
      .ok (getSignedJwtToken demoUser1)
    ∧ login (fun s => s) demoDB
        { email := some "alice@example.com", password := some "bad" } =
      .error .invalidCredentials :=
  ⟨((login_flow (fun s => s) demoDB "alice@example.com" "pw1" (by decide)
      (by decide)).2 demoUser1 (by decide)).2 (by decide),
   ((login_flow (fun s => s) demoDB "alice@example.com" "bad" (by decide)
      (by decide)).2 demoUser1 (by decide)).1 (by decide)⟩

/-- C8: for the owner of an existing reservation, update applies the whole
patch document, and a patch carrying a user, restaurant or apptDate value
replaces the corresponding stored field with it. -/
theorem updateReservation_whole_patch (caller : AuthUser) (id : Nat)
    (patch : ReservationPatch) (db : DB) (r : Reservation)
    (hfind : findReservation db id = some r) (hown : r.user = caller.id) :
    updateReservation caller id patch db =
      .ok (applyPatch r patch,
        { db with reservations :=
            db.reservations.map (fun x => if x.rid == id then applyPatch r patch else x) })
    ∧ (∀ u2, patch.user = some u2 → (applyPatch r patch).user = u2)
    ∧ (∀ t2, patch.restaurant = some t2 → (applyPatch r patch).restaurant = t2)
    ∧ (∀ d2, patch.apptDate = some d2 → (applyPatch r patch).apptDate = d2) := by
  refine ⟨?_, ?_, ?_, ?_⟩
  · have hu := updateReservation_found_eval caller id patch db r hfind
    rw [ownGuard_false (Or.inl hown)] at hu
    simpa using hu
  · intro u2 h
    simp [applyPatch, h]
  · intro t2 h
    simp [applyPatch, h]
  · intro d2 h
    simp [applyPatch, h]

/-- C8 witness: the owner of reservation 1 reassigns it to user 2 and
restaurant 20 through the update body. -/
theorem updateReservation_whole_patch_witness :
    updateReservation ⟨1, "user"⟩ 1 ⟨none, some 2, some 20⟩ demoDB =
      .ok (applyPatch demoR1 ⟨none, some 2, some 20⟩,
        { demoDB with reservations :=
            demoDB.reservations.map (fun x => if x.rid == 1 then applyPatch demoR1 ⟨none, some 2, some 20⟩ else x) })
    ∧ (∀ u2, (⟨none, some 2, some 20⟩ : ReservationPatch).user = some u2 →
        (applyPatch demoR1 ⟨none, some 2, some 20⟩).user = u2)
    ∧ (∀ t2, (⟨none, some 2, some 20⟩ : ReservationPatch).restaurant = some t2 →
        (applyPatch demoR1 ⟨none, some 2, some 20⟩).restaurant = t2)
    ∧ (∀ d2, (⟨none, some 2, some 20⟩ : ReservationPatch).apptDate = some d2 →
        (applyPatch demoR1 ⟨none, some 2, some 20⟩).apptDate = d2) :=
  updateReservation_whole_patch ⟨1, "user"⟩ 1 ⟨none, some 2, some 20⟩ demoDB
    demoR1 (by decide) (by decide)

/-- C9: the restaurant-existence check runs before the booking-cap check, so
a non-admin caller at or over the cap still gets not-found against an absent
restaurant id; and every successfully created reservation carries the
caller's id as its user, whatever user value the body supplied. -/
theorem addReservation_check_order (caller : AuthUser) (restaurantId : Nat)
    (body : ReservationBody) (newId now : Nat) (db : DB) :
    ((∀ t ∈ db.restaurants, t.rid ≠ restaurantId) → caller.role ≠ "admin" →
      3 ≤ ownedCount db caller.id →
      addReservation caller restaurantId body newId now db = .error .notFound)
    ∧ (∀ r db1, addReservation caller restaurantId body newId now db = .ok (r, db1) →
      r.user = caller.id) := by
  constructor
  · intro habs _ _
    exact addReservation_none_eval caller restaurantId body newId now db
      (findRestaurant_eq_none db restaurantId habs)
  · intro r db1 hok
    cases hf : findRestaurant db restaurantId with
    | none =>
      rw [addReservation_none_eval caller restaurantId body newId now db hf] at hok
      cases hok
    | some t =>
      rw [addReservation_found_eval caller restaurantId body newId now db t hf] at hok
      split at hok
      · cases hok
      · simp only [Except.ok.injEq, Prod.mk.injEq] at hok
        rw [← hok.1]

/-- C9 witness: user 1 is non-admin, owns three reservations, and targets
the absent restaurant 99 with a body claiming user 42; the outcome is the
not-found error, not the admission cap. -/
theorem addReservation_check_order_witness :
    addReservation ⟨1, "user"⟩ 99 ⟨"2025-06-01", some 42, none⟩ 50 7 demoDB =
      .error .notFound :=
  (addReservation_check_order ⟨1, "user"⟩ 99 ⟨"2025-06-01", some 42, none⟩
    50 7 demoDB).1 (by decide) (by decide) (by decide)

/-- C10: a login body with a falsy email or password fails the validation
branch, and the outcome is the same whatever the stored users are, so no
lookup result can influence it and no token is issued. -/
theorem login_validation_first (hash : String → String) (db db2 : DB)
    (body : LoginBody)
    (h : strFalsy body.email = true ∨ strFalsy body.password = true) :
    login hash db body = .error .validationError
    ∧ login hash db body = login hash db2 body := by
  have hc : (strFalsy body.email || strFalsy body.password) = true := by
    rcases h with h | h <;> simp [h]
  constructor
  · simp [login, hc]
  · simp [login, hc]

/-- C10 witness: a body with an email but no password fails validation on
the demo store and on the empty store alike. -/
theorem login_validation_first_witness :
    login (fun s => s) demoDB { email := some "alice@example.com" } =
      .error .validationError
    ∧ login (fun s => s) demoDB { email := some "alice@example.com" } =
      login (fun s => s) ⟨[], [], []⟩ { email := some "alice@example.com" } :=
  login_validation_first (fun s => s) demoDB ⟨[], [], []⟩
    { email := some "alice@example.com" } (Or.inr (by decide))

/-- C7: on a listing request the handler completes on (one whose select and
sort are absent or plain, so nothing throws), a query entry filtering a
field with one of the gt, gte, lt, lte or in operator keys survives the
removeFields pass and appears in the built filter with the dollar-prefixed
store operator (for a field name and value the word-bounded operator regex
leaves unchanged); when no sort key is supplied the sort is creation time
descending, and when no limit key is supplied the page size is 25. -/
theorem getRestaurants_ops_and_defaults (req : RestReq) (spec : QuerySpec)
    (hbuild : buildRestaurantQuery req = .ok spec)
    (f op v : String)
    (hf1 : replaceOps f = f)
    (hf2 : f ∉ removeFields)
    (hop : op = "gt" ∨ op = "gte" ∨ op = "lt" ∨ op = "lte" ∨ op = "in")
    (hv : replaceOps v = v)
    (hmem : (f, QueryVal.nested [(op, v)]) ∈ req.query) :
    (f, QueryVal.nested [("$" ++ op, v)]) ∈ spec.filter
    ∧ (qget req "sort" = none → spec.sortBy = "-createdAt")
    ∧ (qgetStr req "limit" = none → spec.limit = 25) := by
  rw [buildRestaurantQuery] at hbuild
  cases hsel : selectArg (qget req "select") with
  | error e =>
    rw [hsel] at hbuild
    cases hbuild
  | ok proj =>
    rw [hsel] at hbuild
    cases hsrt : sortArg (qget req "sort") with
    | error e =>
      rw [hsrt] at hbuild
      cases hbuild
    | ok srt =>
      rw [hsrt] at hbuild
      simp only [Except.ok.injEq] at hbuild
      subst hbuild
      refine ⟨?_, fun h => ?_, fun h => ?_⟩
      · have hop2 : replaceOps op = "$" ++ op := by
          rcases hop with rfl | rfl | rfl | rfl | rfl <;> decide
        have h1 : (f, QueryVal.nested [(op, v)]) ∈ reqQueryFiltered req := by
          rw [reqQueryFiltered, List.mem_filter]
          refine ⟨hmem, ?_⟩
          simpa using hf2
        show (f, QueryVal.nested [("$" ++ op, v)]) ∈ translateQuery (reqQueryFiltered req)
        rw [translateQuery, List.mem_map]
        exact ⟨(f, QueryVal.nested [(op, v)]), h1, by simp [translateVal, hf1, hop2, hv]⟩
      · rw [h] at hsrt
        simp only [sortArg, Except.ok.injEq] at hsrt
        show srt = "-createdAt"
        rw [← hsrt]
      · show effectiveLimit req = 25
        simp [effectiveLimit, h, jsOrInt]

/-- Demo listing request: a plain province filter and a nested
maxSeats-at-least filter, no select, sort, page or limit key. -/
def demoReq : RestReq :=
  ⟨[("province", QueryVal.plain "Bangkok"),
    ("maxSeats", QueryVal.nested [("gte", "50")])]⟩

/-- Query the handler builds for the demo listing request. -/
def demoSpec : QuerySpec :=
  { filter := [("province", QueryVal.plain "Bangkok"),
      ("maxSeats", QueryVal.nested [("$gte", "50")])]
    projection := none
    sortBy := "-createdAt"
    skip := 0
    limit := 25 }

/-- C7 witness: the demo request builds successfully, its maxSeats filter
carries the dollar-gte operator, and the absent sort and limit keys give the
default sort and page size 25. -/
theorem getRestaurants_ops_and_defaults_witness :
    ("maxSeats", QueryVal.nested [("$gte", "50")]) ∈ demoSpec.filter
    ∧ (qget demoReq "sort" = none → demoSpec.sortBy = "-createdAt")
    ∧ (qgetStr demoReq "limit" = none → demoSpec.limit = 25) :=
  getRestaurants_ops_and_defaults demoReq demoSpec (by rfl)
    "maxSeats" "gte" "50" (by decide) (by decide) (Or.inr (Or.inl rfl))
    (by decide) (by decide)
